import Mathlib

/-!
Shallow embedding of `mongotor/database.py` (the topology / routing layer of the
mongotor driver): the `Node` health probe, the node-selection rules, address
parsing, the `Database` singleton lifecycle, and command dispatch.

Python dynamic features are made explicit:
* BSON field values are `BVal`; a SON document is an ordered association list `Doc`.
* Python truthiness (`if response:`) is the `truthy` / `truthyResp` functions.
* A Python attribute that may not have been assigned yet (`Node.is_master` is only
  assigned inside `Node.config`) is an `Option`; reading it while absent is an
  `AttributeError`.
* Exceptions are `Except PyErr` or an explicit `raised : Option PyErr` field.
-/

set_option autoImplicit false

namespace Mongotor

/-- A BSON field value (the fragment needed by `database.py`). -/
inductive BVal where
  | bool (b : Bool)
  | int (n : Int)
  | str (s : String)
  deriving DecidableEq, Repr

/-- A SON document: an ordered association list of field name / value pairs. -/
abbrev Doc := List (String × BVal)

/-- Python truthiness of a value. -/
def truthy : BVal → Bool
  | .bool b => b
  | .int n => n != 0
  | .str s => !s.data.isEmpty

/-- Python truthiness of `response` in `Node.config` (`if response:`):
`None` and the empty document are falsy. -/
def truthyResp : Option Doc → Bool
  | none => false
  | some d => !d.isEmpty

/-- `d[key]` lookup; `none` models a `KeyError`. -/
def docLookup : Doc → String → Option BVal
  | [], _ => none
  | (k, v) :: rest, key => if k = key then some v else docLookup rest key

/-- The Python exceptions raised by `database.py` and by the builtins it uses. -/
inductive PyErr where
  /-- `ValueError` from `host, port = address.split(":")` when the split does not
  have exactly two parts. -/
  | valueErrorUnpack
  /-- `ValueError` from `int(port)` on a non-integer string. -/
  | valueErrorIntParse
  /-- An explicit `raise ValueError(msg)`. -/
  | valueErrorMsg (msg : String)
  /-- `KeyError` on a missing document field. -/
  | keyError (k : String)
  /-- `AttributeError` on a never-assigned attribute. -/
  | attributeError (a : String)
  deriving DecidableEq, Repr

/-- State of one `Node` (database.py lines 31–79).

`__init__` sets `is_primary = False` (a write-only field: the rest of the file
reads `is_master`, which `__init__` never assigns), `is_secondary = False`,
`available = False`.  `is_master` is `Option BVal`: `none` means the attribute
has never been assigned, so reading it raises `AttributeError`. -/
structure NodeState where
  host : String
  port : Int
  dbname : String
  is_primary : Bool
  is_secondary : BVal
  is_master : Option BVal
  available : Bool
  deriving DecidableEq, Repr

/-- `Node.__init__`: fresh node state. -/
def Node.mk0 (host : String) (port : Int) (dbname : String) : NodeState :=
  { host := host, port := port, dbname := dbname,
    is_primary := false, is_secondary := .bool false,
    is_master := none, available := false }

/-- The spec's role enum for a node (`Unknown`, `Primary`, `Secondary`). -/
inductive Role where
  | Unknown
  | Primary
  | Secondary
  deriving DecidableEq, BEq, Repr

/-- Modelled from the spec: the spec's `role` field derived from the code's
`is_master` / `is_secondary` flags (§4.2: role is Primary when `ismaster` is
true, else Secondary when `secondary` is true, else Unknown; a node whose
`is_master` attribute was never assigned has no known role). -/
def NodeState.role (n : NodeState) : Role :=
  match n.is_master with
  | none => .Unknown
  | some v =>
    if truthy v then .Primary
    else if truthy n.is_secondary then .Secondary
    else .Unknown

/-- The environment's behaviour for one probe (`Node.config`): either
`Connection(host, port)` raises `InterfaceError`, or the `ismaster` command
raises `InterfaceError` after the connection was created, or the command
returns a `(response, error)` pair whose response part is `r`. -/
inductive ProbeOutcome where
  | connectFail
  | commandFail
  | response (r : Option Doc)
  deriving DecidableEq, Repr

/-- The probe outcomes in which a response was received (the `try` body ran to
completion, so the `else: conn.close()` clause ran). -/
def ProbeOutcome.receivedResponse : ProbeOutcome → Bool
  | .connectFail => false
  | .commandFail => false
  | .response _ => true

/-- The probe outcomes that are a network failure or an absent/falsy response. -/
def ProbeOutcome.isFailure : ProbeOutcome → Bool
  | .connectFail => true
  | .commandFail => true
  | .response r => !truthyResp r

/-- Observable result of one `Node.config` run: the new node state, whether the
dedicated probe connection was created and whether it was closed, how many
times `callback` was invoked, and the exception escaping `config` (if any). -/
structure ConfigResult where
  node : NodeState
  connCreated : Bool
  connClosed : Bool
  callbackCount : Nat
  raised : Option PyErr
  deriving DecidableEq, Repr

/-- `Node.config(callback)` (database.py lines 54–76), one run under a given
probe outcome.

* `InterfaceError` (from `Connection(...)` or from the command) is caught and
  logged; the `else: conn.close()` clause is skipped, so the connection (when
  it was created) is left open; `response` stays `None`, so the node ends with
  `available = False` and `callback()` runs once.
* When a response arrives, `conn.close()` runs.  A falsy response (`None` or
  empty) takes the `else` branch: `available = False`, `callback()`.
  A truthy response runs `self.is_master = response['ismaster']`,
  `self.is_secondary = response['secondary']`, `self.available = True`,
  `callback()`; a missing field raises `KeyError` at that point (the earlier
  assignments stick, the later ones and the callback do not happen). -/
def Node.config (n : NodeState) (o : ProbeOutcome) : ConfigResult :=
  match o with
  | .connectFail =>
    { node := { n with available := false }, connCreated := false,
      connClosed := false, callbackCount := 1, raised := none }
  | .commandFail =>
    { node := { n with available := false }, connCreated := true,
      connClosed := false, callbackCount := 1, raised := none }
  | .response r =>
    if truthyResp r then
      match r with
      | none =>
        -- unreachable: `truthyResp none = false`
        { node := { n with available := false }, connCreated := true,
          connClosed := true, callbackCount := 1, raised := none }
      | some d =>
        match docLookup d "ismaster" with
        | none =>
          { node := n, connCreated := true, connClosed := true,
            callbackCount := 0, raised := some (.keyError "ismaster") }
        | some v =>
          match docLookup d "secondary" with
          | none =>
            { node := { n with is_master := some v }, connCreated := true,
              connClosed := true, callbackCount := 0,
              raised := some (.keyError "secondary") }
          | some w =>
            { node := { n with is_master := some v, is_secondary := w,
                               available := true },
              connCreated := true, connClosed := true, callbackCount := 1,
              raised := none }
    else
      { node := { n with available := false }, connCreated := true,
        connClosed := true, callbackCount := 1, raised := none }

/-- One pass of `Database._config_nodes` (database.py lines 123–129): probe each
node in order, each probe's `gen.Task` resuming the loop when the probe invokes
its callback.  Returns the updated node states and whether the pass ran to
completion (re-scheduling itself via `add_timeout`); a probe that raises never
invokes its callback, so the loop stops there and the remaining nodes keep
their states. -/
def configNodes : List (NodeState × ProbeOutcome) → List NodeState × Bool
  | [] => ([], true)
  | (n, o) :: rest =>
    let r := Node.config n o
    match r.raised with
    | some _ => (r.node :: rest.map Prod.fst, false)
    | none =>
      let t := configNodes rest
      (r.node :: t.1, t.2)

/-- `Database._get_master_node` (database.py lines 131–138), one pass over the
node list: the first node with `node.available and node.is_master` truthy is
returned.  `and` short-circuits, so `is_master` is read only on available
nodes; reading it while unassigned is an `AttributeError`.  `.ok none` models
the no-match case, in which the code schedules a retry of the same pass
(`IOLoop.add_callback`) instead of returning a node. -/
def getMasterNode : List NodeState → Except PyErr (Option NodeState)
  | [] => .ok none
  | n :: rest =>
    if n.available then
      match n.is_master with
      | none => .error (.attributeError "is_master")
      | some v => if truthy v then .ok (some n) else getMasterNode rest
    else getMasterNode rest

/-- The `for` loop of `Database._get_slave_node` (database.py lines 142–145):
first node with `node.available and not node.is_master`. -/
def findSlaveAux : List NodeState → Except PyErr (Option NodeState)
  | [] => .ok none
  | n :: rest =>
    if n.available then
      match n.is_master with
      | none => .error (.attributeError "is_master")
      | some v => if truthy v then findSlaveAux rest else .ok (some n)
    else findSlaveAux rest

/-- `Database._get_slave_node` (database.py lines 140–148): first available
node whose `is_master` is falsy; when the loop finds none, falls through to
`_get_master_node`. -/
def getSlaveNode (ns : List NodeState) : Except PyErr (Option NodeState) :=
  match findSlaveAux ns with
  | .error e => .error e
  | .ok (some n) => .ok (some n)
  | .ok none => getMasterNode ns

/-- The node-selection step of `Database.get_connection` (database.py lines
150–158): `_get_slave_node` when `is_master` is false, `_get_master_node`
when it is true. -/
def getConnectionSelect (is_master : Bool) (ns : List NodeState) :
    Except PyErr (Option NodeState) :=
  if is_master then getMasterNode ns else getSlaveNode ns

/-- `address.split(":")`: Python `str.split` with an explicit one-character
separator keeps empty segments. -/
def splitColonAux : List Char → List Char → List (List Char)
  | [], acc => [acc.reverse]
  | c :: cs, acc =>
    if c = ':' then acc.reverse :: splitColonAux cs []
    else splitColonAux cs (c :: acc)

/-- Python `s.split(":")`. -/
def pySplitColon (s : String) : List String :=
  (splitColonAux s.data []).map String.mk

/-- Strip leading and trailing whitespace from a character list. -/
def stripChars (cs : List Char) : List Char :=
  ((cs.dropWhile Char.isWhitespace).reverse.dropWhile Char.isWhitespace).reverse

/-- Digits-only string to `Nat`. -/
def digitsVal (cs : List Char) : Nat :=
  cs.foldl (fun a c => a * 10 + (c.toNat - '0'.toNat)) 0

/-- Python `int(s)` on a stripped character list: an optional sign followed by
at least one digit; anything else is a `ValueError`. -/
def pyIntCore (cs : List Char) : Option Int :=
  match cs with
  | '-' :: rest =>
    if !rest.isEmpty && rest.all Char.isDigit then some (-(digitsVal rest : Int))
    else none
  | '+' :: rest =>
    if !rest.isEmpty && rest.all Char.isDigit then some (digitsVal rest : Int)
    else none
  | rest =>
    if !rest.isEmpty && rest.all Char.isDigit then some (digitsVal rest : Int)
    else none

/-- Python `int(s)` for a string: strips surrounding whitespace, then parses an
optionally signed decimal integer; `none` models the `ValueError`. -/
def pyInt (s : String) : Option Int :=
  pyIntCore (stripChars s.data)

/-- The `addresses` argument of `connect` / `init`: a single `"host:port"`
string or a list of such strings. -/
inductive Addresses where
  | str (s : String)
  | list (ss : List String)
  deriving DecidableEq, Repr

/-- The loop of `Database._parse_addresses` (database.py lines 116–119):
`host, port = address.split(":")` raises `ValueError` unless the split has
exactly two parts, and `int(port)` raises `ValueError` on a non-integer
string; entries are processed in order and the first bad entry raises. -/
def parseLoop : List String → Except PyErr (List (String × Int))
  | [] => .ok []
  | a :: rest =>
    match pySplitColon a with
    | [host, port] =>
      match pyInt port with
      | some p => (parseLoop rest).map (fun t => (host, p) :: t)
      | none => .error .valueErrorIntParse
    | _ => .error .valueErrorUnpack

/-- `Database._parse_addresses` (database.py lines 110–121): a lone string is
wrapped into a one-element list, then each entry is split into host and
integer port. -/
def Database.parseAddresses (addresses : Addresses) : Except PyErr (List (String × Int)) :=
  match addresses with
  | .str s => parseLoop [s]
  | .list ss => parseLoop ss

/-- The attributes `Database.init` assigns on the instance (database.py lines
93–105).  Absent until `init` has run. -/
structure DBFields where
  addresses : List (String × Int)
  dbname : String
  /-- `self._connected = False`; never set to `True` anywhere in this file. -/
  connected : Bool
  nodes : List NodeState
  deriving DecidableEq, Repr

/-- A `Database` instance: an identity plus its `init`-assigned attributes
(`none` while `init` has not completed the assignments). -/
structure DBInstance where
  id : Nat
  fields : Option DBFields
  deriving DecidableEq, Repr

/-- The process-wide singleton slot `Database._instance`. -/
abbrev DBState := Option DBInstance

/-- Externally visible side-effects of the lifecycle methods. -/
inductive Event where
  /-- A `Node` (and its `ConnectionPool`) was constructed. -/
  | nodeCreated (host : String) (port : Int)
  /-- `IOLoop.add_callback(self._config_nodes)`: the refresh loop was scheduled. -/
  | scheduledConfigNodes
  /-- `node.disconnect()` closed this node's pool. -/
  | poolClosed (host : String) (port : Int)
  deriving DecidableEq, Repr

/-- `Database.__new__` (database.py lines 87–91): if `cls._instance` is unset,
a fresh instance (identity `freshId`, no attributes) is stored there; the
stored instance is returned either way. -/
def Database.new (g : DBState) (freshId : Nat) : DBState × DBInstance :=
  match g with
  | some inst => (some inst, inst)
  | none =>
    let inst : DBInstance := { id := freshId, fields := none }
    (some inst, inst)

deriving instance DecidableEq for Except

/-- Result of `Database.connect`: singleton state after the call, the returned
instance or the exception raised, and the side-effects that happened. -/
structure ConnectResult where
  state : DBState
  result : Except PyErr DBInstance
  events : List Event
  deriving DecidableEq, Repr

/-- `Database.connect` (database.py lines 160–175) together with the
`Database.init` it calls (lines 93–105).

* `if cls._instance: raise ValueError('Database already intiated')` — the
  existing state is untouched and nothing happens.
* Otherwise `Database()` stores a fresh instance in the singleton slot, and
  `init` runs: it parses the addresses first, so a parse `ValueError`
  propagates synchronously before any `Node` is built or any callback is
  scheduled (the fresh, attribute-less instance stays in the slot).
* On success, one `Node` per address is built in order and
  `_config_nodes` is scheduled on the IOLoop. -/
def Database.connect (g : DBState) (freshId : Nat) (addresses : Addresses)
    (dbname : String) : ConnectResult :=
  match g with
  | some inst =>
    { state := some inst,
      result := .error (.valueErrorMsg "Database already intiated"),
      events := [] }
  | none =>
    let inst0 : DBInstance := { id := freshId, fields := none }
    match Database.parseAddresses addresses with
    | .error e =>
      { state := some inst0, result := .error e, events := [] }
    | .ok parsed =>
      let nodes := parsed.map (fun hp => Node.mk0 hp.1 hp.2 dbname)
      let inst : DBInstance :=
        { id := freshId,
          fields := some { addresses := parsed, dbname := dbname,
                           connected := false, nodes := nodes } }
      { state := some inst, result := .ok inst,
        events := parsed.map (fun hp => .nodeCreated hp.1 hp.2)
                    ++ [.scheduledConfigNodes] }

/-- Result of `Database.disconnect`. -/
structure DisconnectResult where
  state : DBState
  result : Except PyErr Unit
  events : List Event
  deriving DecidableEq, Repr

/-- `Database.disconnect` (database.py lines 177–185): raises
`ValueError("Database isn't connected")` when the singleton slot is empty;
otherwise calls `node.disconnect()` (which closes the node's pool) once for
each node in order and clears the slot.  On an instance whose `init` never
ran, reading `_nodes` is an `AttributeError`. -/
def Database.disconnect (g : DBState) : DisconnectResult :=
  match g with
  | none =>
    { state := none,
      result := .error (.valueErrorMsg "Database isn't connected"),
      events := [] }
  | some inst =>
    match inst.fields with
    | none =>
      { state := some inst, result := .error (.attributeError "_nodes"),
        events := [] }
    | some f =>
      { state := none, result := .ok (),
        events := f.nodes.map (fun n => .poolClosed n.host n.port) }

/-- `SON.__setitem__`: replace in place when the key exists, else append. -/
def sonSet (d : Doc) (k : String) (v : BVal) : Doc :=
  if d.any (fun p => p.1 = k) then
    d.map (fun p => if p.1 = k then (k, v) else p)
  else d ++ [(k, v)]

/-- `command.update(kwargs)` on a SON document: set each key in turn. -/
def sonUpdate (d : Doc) (kwargs : List (String × BVal)) : Doc :=
  kwargs.foldl (fun acc kv => sonSet acc kv.1 kv.2) d

/-- The `command` argument of `Database.command`: a bare command name
(`basestring`) or a pre-ordered document. -/
inductive CommandArg where
  | name (s : String)
  | doc (d : Doc)
  deriving DecidableEq, Repr

/-- What `Database._command` (database.py lines 248–252) hands to the `Cursor`
collaborator: collection `'$cmd'`, the finalized document, `is_command=True`,
the read preference, and `limit=-1` from `cursor.find`. -/
structure CursorDispatch where
  collection : String
  doc : Doc
  is_command : Bool
  is_master : Bool
  limit : Int
  deriving DecidableEq, Repr

/-- `Database._command(command, is_master, connection, callback)`:
builds `Cursor('$cmd', command, is_command=True, is_master=is_master)` and
calls `cursor.find(limit=-1, ...)`. -/
def Database.cmdInternal (doc : Doc) (is_master : Bool) : CursorDispatch :=
  { collection := "$cmd", doc := doc, is_command := true,
    is_master := is_master, limit := -1 }

/-- `Database.command` (database.py lines 197–246).  Signature defaults:
`value=1`, `is_master=True`.  A bare name becomes `SON([(command, value)])`;
`kwargs` are merged with `command.update(kwargs)`.  The final line is
`self._command(command, is_master=True, callback=callback)` — the literal
`True`, not the method's `is_master` parameter. -/
def Database.command (cmd : CommandArg) (value : BVal) (is_master : Bool)
    (kwargs : List (String × BVal)) : CursorDispatch :=
  let seed : Doc :=
    match cmd with
    | .name s => [(s, value)]
    | .doc d => d
  Database.cmdInternal (sonUpdate seed kwargs) true

/-- The boolean the selection loops test after the `available` check: the
truthiness of the node's `is_master` attribute (defaulting the never-assigned
case, which the loops cannot reach on an available node of a reachable
snapshot). -/
def masterFlag (n : NodeState) : Bool :=
  truthy (n.is_master.getD (.bool false))

/-- Modelled from the spec (§4.3): Secondary preference — the first node in
list order with `available = true` and `role = Secondary`; when none exists,
the Primary rule (first node with `available = true` and `role = Primary`). -/
def specSelectSecondary (ns : List NodeState) : Option NodeState :=
  match ns.find? (fun n => n.available && decide (n.role = Role.Secondary)) with
  | some n => some n
  | none => ns.find? (fun n => n.available && decide (n.role = Role.Primary))

/-- The Secondary-preference rule the code actually implements: the first node
in list order with `available = true` and a falsy `is_master` flag (the
`is_secondary` flag is never consulted); when none exists, the Primary rule
(first node with `available = true` and a truthy `is_master` flag). -/
def amendedSelectSecondary (ns : List NodeState) : Option NodeState :=
  match ns.find? (fun n => n.available && !masterFlag n) with
  | some n => some n
  | none => ns.find? (fun n => n.available && masterFlag n)

/-- Reachable node snapshots: every available node has its `is_master`
attribute assigned (`Node.config` sets `available = True` only in the same
step that assigns `is_master`). -/
abbrev WFNodes (ns : List NodeState) : Prop :=
  ∀ n ∈ ns, n.available = true → n.is_master.isSome

/-- An address entry that is malformed in the claim's sense: not exactly one
`:` separator, or a non-integer port. -/
def badAddress (s : String) : Bool :=
  match pySplitColon s with
  | [_, port] => (pyInt port).isNone
  | _ => true

/-! ### Concrete fixtures -/

/-- A node as built by `Node.__init__`, before any probe. -/
def freshNode : NodeState :=
  Node.mk0 "a" 27017 "db"

/-- A node whose last probe answered `{ismaster: true, secondary: false}`. -/
def primaryNode : NodeState :=
  { Node.mk0 "a" 27017 "db" with is_master := some (.bool true), available := true }

/-- A node whose last probe answered `{ismaster: false, secondary: true}`. -/
def secondaryNode : NodeState :=
  { Node.mk0 "b" 27018 "db" with
      is_master := some (.bool false)
      is_secondary := .bool true
      available := true }

/-- A previously-primary node whose probe has marked it unavailable. -/
def unavailNode : NodeState :=
  { Node.mk0 "u" 27016 "db" with is_master := some (.bool true), available := false }

/-- An available node whose last probe answered
`{ismaster: false, secondary: false}` (e.g. an arbiter or recovering member):
its spec role is `Unknown`, not `Secondary`. -/
def oddNode : NodeState :=
  { Node.mk0 "c" 27019 "db" with is_master := some (.bool false), available := true }

/-- An instance as left by `Database()` alone (no `init`). -/
def inst0 : DBInstance :=
  { id := 0, fields := none }

/-- A fully initialized single-node instance. -/
def instConn : DBInstance :=
  { id := 0,
    fields := some { addresses := [("a", 27017)], dbname := "db",
                     connected := false, nodes := [Node.mk0 "a" 27017 "db"] } }

/-! ### Theorems -/

/-- C1: `Database.command` does not dispatch with the read preference chosen
by the caller: whatever `is_master` argument is passed (here the failing input
`is_master = false`, the Secondary preference), the cursor handed to the
dispatch layer carries the hardcoded `is_master = true` from line 246
(`self._command(command, is_master=True, callback=callback)`), so node
selection runs `_get_master_node` — the Primary rule — instead of the
Secondary rule the claim requires. -/
theorem command_read_preference_hardcoded (cmd : CommandArg) (value : BVal)
    (kwargs : List (String × BVal)) (ns : List NodeState) :
    (Database.command cmd value false kwargs).is_master = true ∧
    getConnectionSelect (Database.command cmd value false kwargs).is_master ns
      = getMasterNode ns :=
  ⟨rfl, rfl⟩

/-- C2 counterexample: with a handle already stored in the singleton slot,
`connect` does not return the existing handle — it raises
`ValueError('Database already intiated')`. -/
theorem connect_on_existing_handle_raises :
    (Database.connect (some inst0) 1 (.list ["a:27017"]) "db").result
      = .error (.valueErrorMsg "Database already intiated") :=
  rfl

/-- C2 amended: if a registry handle already exists, `connect` fails
synchronously with `ValueError('Database already intiated')` (the
"fail if already connected" variant), leaving the existing handle in the
singleton slot and performing no side-effect. -/
theorem connect_already_connected_fails (g : DBState) (inst : DBInstance)
    (h : g = some inst) (fid : Nat) (a : Addresses) (db : String) :
    Database.connect g fid a db
      = { state := g,
          result := .error (.valueErrorMsg "Database already intiated"),
          events := [] } := by
  subst h
  rfl

/-- C2 witness: the amended behaviour at a concrete already-connected state. -/
theorem connect_already_connected_fails_witness :
    Database.connect (some { id := 5, fields := none }) 9 (.str "a:27017") "db"
      = { state := some { id := 5, fields := none },
          result := .error (.valueErrorMsg "Database already intiated"),
          events := [] } :=
  connect_already_connected_fails (some { id := 5, fields := none })
    { id := 5, fields := none } rfl 9 (.str "a:27017") "db"

/-- C10: `Database.__new__` is the singleton point: constructing when the slot
is empty stores the fresh instance and returns it, constructing again returns
the identical instance (whatever candidate identity is supplied), and once an
instance exists — even though `connect` was never called — a later `connect`
observes the already-existing handle (it takes the `cls._instance` branch and
raises instead of building a new one). -/
theorem database_new_singleton (g : DBState) (id1 id2 : Nat) :
    (Database.new g id1).1 = some (Database.new g id1).2 ∧
    (Database.new (Database.new g id1).1 id2).2 = (Database.new g id1).2 ∧
    ∀ (fid : Nat) (a : Addresses) (db : String),
      (Database.connect (Database.new g id1).1 fid a db).result
        = .error (.valueErrorMsg "Database already intiated") := by
  cases g <;> exact ⟨rfl, rfl, fun _ _ _ => rfl⟩

/-- C3 counterexample: the probe response `{ismaster: true}` with no
`secondary` field does not drive the node to an available Primary —
`self.is_secondary = response['secondary']` raises `KeyError('secondary')`,
which escapes the probe; `available` stays `false` and the callback never
runs. -/
theorem probe_missing_secondary_field :
    (Node.config freshNode (.response (some [("ismaster", .bool true)]))).raised
      = some (.keyError "secondary") ∧
    (Node.config freshNode (.response (some [("ismaster", .bool true)]))).node.available
      = false ∧
    (Node.config freshNode (.response (some [("ismaster", .bool true)]))).callbackCount
      = 0 := by
  decide

/-- C3 amended: for every probe that receives a response containing both an
`ismaster` and a `secondary` field, no exception escapes the probe, the node
ends with `available = true` and the callback runs once; a truthy `ismaster`
drives `role = Primary`, and a falsy `ismaster` with a truthy `secondary`
drives `role = Secondary`.  (A response lacking either field instead raises a
`KeyError` out of the probe — see the counterexample.) -/
theorem probe_response_roles (n : NodeState) (d : Doc) (v w : BVal)
    (hm : docLookup d "ismaster" = some v) (hs : docLookup d "secondary" = some w) :
    (Node.config n (.response (some d))).raised = none ∧
    (Node.config n (.response (some d))).node.available = true ∧
    (Node.config n (.response (some d))).callbackCount = 1 ∧
    (truthy v = true → (Node.config n (.response (some d))).node.role = Role.Primary) ∧
    (truthy v = false → truthy w = true →
      (Node.config n (.response (some d))).node.role = Role.Secondary) := by
  have htr : truthyResp (some d) = true := by
    cases d with
    | nil => simp [docLookup] at hm
    | cons p t => simp [truthyResp]
  refine ⟨?_, ?_, ?_, ?_, ?_⟩ <;>
    simp [Node.config, htr, hm, hs, NodeState.role]
  · intro h
    simp [h]
  · intro h1 h2
    simp [h1, h2]

/-- C3 witness: the amended statement at the concrete response
`{ismaster: false, secondary: true}`. -/
theorem probe_response_roles_witness :
    (Node.config freshNode
        (.response (some [("ismaster", .bool false), ("secondary", .bool true)]))).raised
      = none ∧
    (Node.config freshNode
        (.response (some [("ismaster", .bool false), ("secondary", .bool true)]))).node.available
      = true ∧
    (Node.config freshNode
        (.response (some [("ismaster", .bool false), ("secondary", .bool true)]))).node.role
      = Role.Secondary :=
  ⟨(probe_response_roles freshNode [("ismaster", .bool false), ("secondary", .bool true)]
      (.bool false) (.bool true) rfl rfl).1,
   (probe_response_roles freshNode [("ismaster", .bool false), ("secondary", .bool true)]
      (.bool false) (.bool true) rfl rfl).2.1,
   (probe_response_roles freshNode [("ismaster", .bool false), ("secondary", .bool true)]
      (.bool false) (.bool true) rfl rfl).2.2.2.2 rfl rfl⟩

/-- C4 counterexample: a failed probe leaves the last recorded role flags in
place — a node last seen as primary still has role `Primary` (not `Unknown`)
after the failing probe; only `available` is cleared. -/
theorem probe_failure_role_not_reset :
    (Node.config primaryNode .connectFail).node.available = false ∧
    (Node.config primaryNode .connectFail).node.role = Role.Primary := by
  decide

/-- C4 amended: for every probe that fails with a network error (the caught
`InterfaceError` from connecting or from the ismaster command, or an
absent/falsy response), the node ends with `available = false` while its
`is_master` / `is_secondary` flags — hence its role — keep their last recorded
values (the role is not reset to `Unknown`; it is merely unusable because
`available = false`); no exception propagates past the probe, the callback
runs once, and the refresh loop proceeds to probe the remaining nodes. -/
theorem probe_failure_contained (n : NodeState) (o : ProbeOutcome)
    (h : o.isFailure = true) (rest : List (NodeState × ProbeOutcome)) :
    (Node.config n o).node.available = false ∧
    (Node.config n o).node.is_master = n.is_master ∧
    (Node.config n o).node.is_secondary = n.is_secondary ∧
    (Node.config n o).node.role = n.role ∧
    (Node.config n o).raised = none ∧
    (Node.config n o).callbackCount = 1 ∧
    configNodes ((n, o) :: rest)
      = ((Node.config n o).node :: (configNodes rest).1, (configNodes rest).2) := by
  cases o with
  | connectFail => exact ⟨rfl, rfl, rfl, rfl, rfl, rfl, rfl⟩
  | commandFail => exact ⟨rfl, rfl, rfl, rfl, rfl, rfl, rfl⟩
  | response r =>
    have htr : truthyResp r = false := by
      simpa [ProbeOutcome.isFailure] using h
    refine ⟨?_, ?_, ?_, ?_, ?_, ?_, ?_⟩ <;>
      simp [Node.config, configNodes, htr, NodeState.role]

/-- C4 witness: the amended statement at a concrete failing probe. -/
theorem probe_failure_contained_witness :
    ProbeOutcome.isFailure .connectFail = true ∧
    (Node.config freshNode .connectFail).node.available = false ∧
    (Node.config freshNode .connectFail).raised = none :=
  ⟨rfl, (probe_failure_contained freshNode .connectFail rfl []).1,
        (probe_failure_contained freshNode .connectFail rfl []).2.2.2.2.1⟩

/-- C5 counterexample: when the probe connection is created and the ismaster
command then fails, the connection is not closed — `conn.close()` sits in the
`else` clause of the `try`, which is skipped on an `InterfaceError` — so "in
both outcomes the dedicated probe connection is closed" is false; the callback
still runs exactly once. -/
theorem probe_failure_leaves_conn_open :
    (Node.config freshNode .commandFail).connCreated = true ∧
    (Node.config freshNode .commandFail).connClosed = false ∧
    (Node.config freshNode .commandFail).callbackCount = 1 := by
  decide

/-- C5 amended: in every probe run that does not itself raise (well-formed or
absent response, or a caught network failure), the completion callback is
invoked exactly once; but the dedicated probe connection is closed only in the
outcomes where a response was received — on a connection/command failure the
connection (when it was created) is left open. -/
theorem probe_callback_once_conn_closed_iff_response (n : NodeState)
    (o : ProbeOutcome) (h : (Node.config n o).raised = none) :
    (Node.config n o).callbackCount = 1 ∧
    (Node.config n o).connClosed = o.receivedResponse := by
  cases o with
  | connectFail => exact ⟨rfl, rfl⟩
  | commandFail => exact ⟨rfl, rfl⟩
  | response r =>
    cases htr : truthyResp r with
    | false => simp [Node.config, htr, ProbeOutcome.receivedResponse]
    | true =>
      cases r with
      | none => simp [truthyResp] at htr
      | some d =>
        cases hm : docLookup d "ismaster" with
        | none =>
          exfalso
          simp [Node.config, htr, hm] at h
        | some v =>
          cases hs : docLookup d "secondary" with
          | none =>
            exfalso
            simp [Node.config, htr, hm, hs] at h
          | some w =>
            simp [Node.config, htr, hm, hs, ProbeOutcome.receivedResponse]

/-- C5 witness: the amended statement at a concrete completed probe. -/
theorem probe_callback_once_conn_closed_iff_response_witness :
    (Node.config freshNode (.response none)).raised = none ∧
    (Node.config freshNode (.response none)).callbackCount = 1 ∧
    (Node.config freshNode (.response none)).connClosed
      = ProbeOutcome.receivedResponse (.response none) :=
  ⟨rfl, (probe_callback_once_conn_closed_iff_response freshNode (.response none) rfl).1,
        (probe_callback_once_conn_closed_iff_response freshNode (.response none) rfl).2⟩

theorem getMasterNode_available (ns : List NodeState) (n : NodeState)
    (h : getMasterNode ns = .ok (some n)) : n.available = true := by
  induction ns with
  | nil => simp [getMasterNode] at h
  | cons m rest ih =>
    rw [getMasterNode] at h
    split at h
    next hav =>
      split at h
      next => exact absurd h (by simp)
      next v hm =>
        split at h
        next ht =>
          simp only [Except.ok.injEq, Option.some.injEq] at h
          subst h
          exact hav
        next ht => exact ih h
    next hav => exact ih h

theorem findSlaveAux_available (ns : List NodeState) (n : NodeState)
    (h : findSlaveAux ns = .ok (some n)) : n.available = true := by
  induction ns with
  | nil => simp [findSlaveAux] at h
  | cons m rest ih =>
    rw [findSlaveAux] at h
    split at h
    next hav =>
      split at h
      next => exact absurd h (by simp)
      next v hm =>
        split at h
        next ht => exact ih h
        next ht =>
          simp only [Except.ok.injEq, Option.some.injEq] at h
          subst h
          exact hav
    next hav => exact ih h

/-- C7: node selection — for either read preference taken by
`get_connection` — never returns a node whose `available` flag is false,
whatever role flags the node last recorded: both selection loops test
`node.available` before anything else. -/
theorem selection_requires_available (b : Bool) (ns : List NodeState)
    (n : NodeState) (h : getConnectionSelect b ns = .ok (some n)) :
    n.available = true := by
  cases b with
  | true =>
    rw [getConnectionSelect, if_pos rfl] at h
    exact getMasterNode_available ns n h
  | false =>
    rw [getConnectionSelect] at h
    simp only [Bool.false_eq_true, if_false] at h
    rw [getSlaveNode] at h
    cases hf : findSlaveAux ns with
    | error e => rw [hf] at h; simp at h
    | ok o =>
      rw [hf] at h
      cases o with
      | some m =>
        simp only [Except.ok.injEq, Option.some.injEq] at h
        subst h
        exact findSlaveAux_available ns _ hf
      | none => exact getMasterNode_available ns n h

/-- C7 witness: a concrete snapshot where selection returns the available
primary and a concrete snapshot where the Secondary preference returns the
available secondary. -/
theorem selection_requires_available_witness :
    getConnectionSelect true [unavailNode, secondaryNode, primaryNode]
      = .ok (some primaryNode) ∧
    primaryNode.available = true ∧
    getConnectionSelect false [unavailNode, secondaryNode, primaryNode]
      = .ok (some secondaryNode) ∧
    secondaryNode.available = true :=
  ⟨by decide,
   selection_requires_available true [unavailNode, secondaryNode, primaryNode]
     primaryNode (by decide),
   by decide,
   selection_requires_available false [unavailNode, secondaryNode, primaryNode]
     secondaryNode (by decide)⟩

theorem getMasterNode_eq_find (ns : List NodeState) (h : WFNodes ns) :
    getMasterNode ns = .ok (ns.find? (fun n => n.available && masterFlag n)) := by
  induction ns with
  | nil => rfl
  | cons m rest ih =>
    have hrest : WFNodes rest := fun n hn => h n (List.mem_cons_of_mem m hn)
    rw [getMasterNode, List.find?]
    by_cases hav : m.available
    · have hsome := h m (List.mem_cons_self m rest) hav
      cases hm : m.is_master with
      | none => rw [hm] at hsome; simp at hsome
      | some v =>
        have hflag : masterFlag m = truthy v := by
          simp [masterFlag, hm]
        by_cases ht : truthy v
        · simp [hav, hm, ht, hflag]
        · simp only [hav, hflag, ht, Bool.and_false, if_pos, if_neg, hm]
          simp [ht, ih hrest]
    · simp [hav, ih hrest]

theorem findSlaveAux_eq_find (ns : List NodeState) (h : WFNodes ns) :
    findSlaveAux ns = .ok (ns.find? (fun n => n.available && !masterFlag n)) := by
  induction ns with
  | nil => rfl
  | cons m rest ih =>
    have hrest : WFNodes rest := fun n hn => h n (List.mem_cons_of_mem m hn)
    rw [findSlaveAux, List.find?]
    by_cases hav : m.available
    · have hsome := h m (List.mem_cons_self m rest) hav
      cases hm : m.is_master with
      | none => rw [hm] at hsome; simp at hsome
      | some v =>
        have hflag : masterFlag m = truthy v := by
          simp [masterFlag, hm]
        by_cases ht : truthy v
        · simp [hav, hm, ht, hflag, ih hrest]
        · simp [hav, hm, ht, hflag]
    · simp [hav, ih hrest]

/-- C6 counterexample: an available node whose probe answered
`{ismaster: false, secondary: false}` (spec role `Unknown`, not `Secondary`)
is returned by the code's Secondary-preference rule, whereas the rule stated
by the claim — first available node with role `Secondary`, else the Primary
rule — selects no node at all on this snapshot. -/
theorem slave_selection_counterexample :
    getSlaveNode [oddNode] = .ok (some oddNode) ∧
    specSelectSecondary [oddNode] = none ∧
    oddNode.role = Role.Unknown := by
  decide

/-- C6 amended: on every reachable snapshot (each available node has its
`is_master` attribute assigned), selection with preference Secondary returns
the first node in list order with `available = true` and a falsy `is_master`
flag — i.e. any available non-primary, regardless of its `secondary` flag —
and if no such node exists it returns the result of the Primary rule (first
available node with a truthy `is_master` flag). -/
theorem slave_selection_rule (ns : List NodeState) (h : WFNodes ns) :
    getSlaveNode ns = .ok (amendedSelectSecondary ns) := by
  rw [getSlaveNode, findSlaveAux_eq_find ns h, amendedSelectSecondary]
  cases hfind : ns.find? (fun n => n.available && !masterFlag n) with
  | some m => rfl
  | none => exact getMasterNode_eq_find ns h

/-- C6 witness: the amended rule at a concrete snapshot, where it picks the
available secondary. -/
theorem slave_selection_rule_witness :
    WFNodes [unavailNode, secondaryNode, primaryNode] ∧
    getSlaveNode [unavailNode, secondaryNode, primaryNode]
      = .ok (amendedSelectSecondary [unavailNode, secondaryNode, primaryNode]) ∧
    amendedSelectSecondary [unavailNode, secondaryNode, primaryNode]
      = some secondaryNode :=
  ⟨by decide,
   slave_selection_rule [unavailNode, secondaryNode, primaryNode] (by decide),
   by decide⟩

theorem parseLoop_error_of_bad (l : List String)
    (hb : ∃ a ∈ l, badAddress a = true) :
    ∃ e, parseLoop l = .error e ∧
      (e = PyErr.valueErrorUnpack ∨ e = PyErr.valueErrorIntParse) := by
  induction l with
  | nil => simp at hb
  | cons a rest ih =>
    cases hsplit : pySplitColon a with
    | nil =>
      exact ⟨.valueErrorUnpack, by rw [parseLoop, hsplit], Or.inl rfl⟩
    | cons host t =>
      cases t with
      | nil =>
        exact ⟨.valueErrorUnpack, by rw [parseLoop, hsplit], Or.inl rfl⟩
      | cons port t2 =>
        cases t2 with
        | cons c t3 =>
          exact ⟨.valueErrorUnpack, by rw [parseLoop, hsplit], Or.inl rfl⟩
        | nil =>
          cases hport : pyInt port with
          | none =>
            exact ⟨.valueErrorIntParse, by simp [parseLoop, hsplit, hport], Or.inr rfl⟩
          | some p =>
            have hgood : badAddress a = false := by
              simp [badAddress, hsplit, hport]
            have hrest : ∃ x ∈ rest, badAddress x = true := by
              obtain ⟨x, hx, hbx⟩ := hb
              cases hx with
              | head => rw [hgood] at hbx; exact absurd hbx (by simp)
              | tail _ hmem => exact ⟨x, hmem, hbx⟩
            obtain ⟨e, he, hkind⟩ := ih hrest
            refine ⟨e, ?_, hkind⟩
            simp [parseLoop, hsplit, hport, he, Except.map]

/-- C8: parsing the address list `["a:27017", "b:27018"]` yields host/port
pairs — and hence nodes — in exactly that order with host and port correctly
separated; and for any entry lacking exactly one `:` separator or having a
non-integer port, `connect` fails synchronously with the address-parse
`ValueError` (the spec's `AddressParseError`) before any node is built or any
asynchronous work is scheduled (the event list stays empty). -/
theorem parse_order_and_bad_address_errors :
    Database.parseAddresses (.list ["a:27017", "b:27018"])
      = .ok [("a", 27017), ("b", 27018)] ∧
    (Database.connect none 0 (.list ["a:27017", "b:27018"]) "db").result
      = .ok { id := 0,
              fields := some { addresses := [("a", 27017), ("b", 27018)],
                               dbname := "db", connected := false,
                               nodes := [Node.mk0 "a" 27017 "db",
                                         Node.mk0 "b" 27018 "db"] } } ∧
    ∀ (addrs : List String) (db : String) (fid : Nat),
      (∃ a ∈ addrs, badAddress a = true) →
      ∃ e, (Database.connect none fid (.list addrs) db).result = .error e ∧
        (e = PyErr.valueErrorUnpack ∨ e = PyErr.valueErrorIntParse) ∧
        (Database.connect none fid (.list addrs) db).events = [] := by
  refine ⟨by decide, by decide, ?_⟩
  intro addrs db fid hb
  obtain ⟨e, he, hkind⟩ := parseLoop_error_of_bad addrs hb
  refine ⟨e, ?_, hkind, ?_⟩ <;>
    simp [Database.connect, Database.parseAddresses, he]

/-- C8 witness: the address `"bad-address"` (no colon) makes `connect` fail
with the parse `ValueError` and no side-effect. -/
theorem parse_order_and_bad_address_errors_witness :
    ∃ e, (Database.connect none 0 (.list ["bad-address"]) "db").result = .error e ∧
      (e = PyErr.valueErrorUnpack ∨ e = PyErr.valueErrorIntParse) ∧
      (Database.connect none 0 (.list ["bad-address"]) "db").events = [] :=
  parse_order_and_bad_address_errors.2.2 ["bad-address"] "db" 0
    ⟨"bad-address", by decide, by decide⟩

/-- C9: `disconnect` on a connected handle empties the singleton slot,
returns normally, and closes every node's pool exactly once (one
`poolClosed` event per node, in list order); afterwards any `connect` with
parseable addresses succeeds from the fresh empty state.  `disconnect` when
no handle exists raises `ValueError("Database isn't connected")` — the
spec's `NotConnectedError` — leaving the state unchanged and performing no
side-effect. -/
theorem disconnect_closes_pools_and_resets (inst : DBInstance) (f : DBFields)
    (h : inst.fields = some f) :
    (Database.disconnect (some inst)).state = none ∧
    (Database.disconnect (some inst)).result = .ok () ∧
    (Database.disconnect (some inst)).events
      = f.nodes.map (fun n => Event.poolClosed n.host n.port) ∧
    (∀ (fid : Nat) (a : Addresses) (db : String) (parsed : List (String × Int)),
      Database.parseAddresses a = .ok parsed →
      ∃ inst2, (Database.connect (Database.disconnect (some inst)).state fid a db).result
        = .ok inst2) ∧
    Database.disconnect none
      = { state := none,
          result := .error (.valueErrorMsg "Database isn't connected"),
          events := [] } := by
  refine ⟨?_, ?_, ?_, ?_, rfl⟩
  · simp [Database.disconnect, h]
  · simp [Database.disconnect, h]
  · simp [Database.disconnect, h]
  · intro fid a db parsed hp
    have hstate : (Database.disconnect (some inst)).state = none := by
      simp [Database.disconnect, h]
    rw [hstate]
    refine ⟨{ id := fid,
              fields := some { addresses := parsed, dbname := db, connected := false,
                               nodes := parsed.map (fun hp => Node.mk0 hp.1 hp.2 db) } }, ?_⟩
    simp [Database.connect, hp]

/-- C9 witness: disconnecting a concrete connected single-node handle. -/
theorem disconnect_closes_pools_and_resets_witness :
    instConn.fields.isSome = true ∧
    (Database.disconnect (some instConn)).state = none ∧
    (Database.disconnect (some instConn)).result = .ok () ∧
    (Database.disconnect (some instConn)).events = [Event.poolClosed "a" 27017] ∧
    (∃ inst2, (Database.connect (Database.disconnect (some instConn)).state 1
        (.list ["b:27018"]) "db2").result = .ok inst2) :=
  ⟨rfl,
   (disconnect_closes_pools_and_resets instConn
      { addresses := [("a", 27017)], dbname := "db", connected := false,
        nodes := [Node.mk0 "a" 27017 "db"] } rfl).1,
   (disconnect_closes_pools_and_resets instConn
      { addresses := [("a", 27017)], dbname := "db", connected := false,
        nodes := [Node.mk0 "a" 27017 "db"] } rfl).2.1,
   ((disconnect_closes_pools_and_resets instConn
      { addresses := [("a", 27017)], dbname := "db", connected := false,
        nodes := [Node.mk0 "a" 27017 "db"] } rfl).2.2.1).trans (by decide),
   (disconnect_closes_pools_and_resets instConn
      { addresses := [("a", 27017)], dbname := "db", connected := false,
        nodes := [Node.mk0 "a" 27017 "db"] } rfl).2.2.2.1 1 (.list ["b:27018"]) "db2"
      [("b", 27018)] (by decide)⟩

end Mongotor
